import Mathlib

/-!
Verification of `webviz_config/certificate/_certificate_generator.py`.

The Python module issues a local development certificate authority (CA) and
short-lived `localhost` server certificates.  We embed its data model and the
four operations (`create_key`, `certificate_template`, `create_ca`,
`create_certificate`) shallowly:

* the filesystem is an explicit association list from paths to structured
  file contents (PEM serialization is modelled as an injective constructor);
* randomness (RSA key material, certificate serial numbers), the two
  `datetime.datetime.utcnow()` readings taken while building a template, the
  current OS user name and the SHA-1 digest produced by the crypto backend
  are supplied through an explicit environment record;
* the external `certutil` trust-store subprocess is modelled by its outcome
  (success, `PermissionError`, `subprocess.CalledProcessError`, or an
  uncaught `FileNotFoundError` when the executable is absent);
* raising an exception is modelled by returning the state at the raise point
  together with the raised error value.

Time is measured in integer seconds (UTC).
-/

namespace WebvizCert

/-- A filesystem path, as a list of components (`a / b` is `a ++ [b]`). -/
abbrev Path := List String

/-- Rendering of a path for interpolation into messages (POSIX style). -/
def pathToString (p : Path) : String := String.intercalate "/" p

/-- `ca.key` constant from the source. -/
def CA_KEY_FILENAME : String := "ca.key"

/-- `ca.crt` constant from the source. -/
def CA_CRT_FILENAME : String := "ca.crt"

/-- `server.key` constant from the source. -/
def SERVER_KEY_FILENAME : String := "server.key"

/-- `server.crt` constant from the source. -/
def SERVER_CRT_FILENAME : String := "server.crt"

/-- Modelled from the spec: the user data directory (`user_data_dir()` lives
in `webviz_config/_user_data_dir.py`, outside the provided sources; the spec
says only that it is an OS-appropriate per-user data path, created if
absent).  We model it as a fixed abstract path. -/
def user_data_dir : Path := ["home", "user", ".local", "share", "webviz"]

/-- An RSA public key, identified by its parameters and the randomness that
produced the underlying private key. -/
structure RSAPublicKey where
  public_exponent : Nat
  key_size : Nat
  seed : Nat
deriving DecidableEq, Repr

/-- An RSA private key (`rsa.RSAPrivateKey`); `seed` stands for the
generation randomness, so distinct draws give distinct keys. -/
structure RSAKey where
  public_exponent : Nat
  key_size : Nat
  seed : Nat
deriving DecidableEq, Repr

/-- `key.public_key()`: the public half of an RSA private key. -/
def RSAKey.public_key (k : RSAKey) : RSAPublicKey :=
  ⟨k.public_exponent, k.key_size, k.seed⟩

/-- `rsa.generate_private_key(public_exponent=..., key_size=..., backend=...)`. -/
def generate_private_key (public_exponent key_size seed : Nat) : RSAKey :=
  ⟨public_exponent, key_size, seed⟩

/-- An X.509 distinguished name (`x509.Name`) with the attributes the source
uses. -/
structure Name where
  country : String
  locality : String
  organization : String
  common_name : String
  organizational_unit : String
deriving DecidableEq, Repr

/-- The module-level `NAME` constant: static fields plus the current OS user
as common name (`getpass.getuser()` is passed in as `user`). -/
def NAME (user : String) : Name :=
  ⟨"NO", "Trondheim", "Webviz", user, "Webviz"⟩

/-- Signature hash algorithms used by the source. -/
inductive HashAlg
  | SHA256
  | SHA1
deriving DecidableEq, Repr

/-- The nine `x509.KeyUsage` flags, by name. -/
structure KeyUsageFlags where
  digital_signature : Bool
  key_encipherment : Bool
  content_commitment : Bool
  data_encipherment : Bool
  key_agreement : Bool
  encipher_only : Bool
  decipher_only : Bool
  key_cert_sign : Bool
  crl_sign : Bool
deriving DecidableEq, Repr

/-- X.509 extension payloads appearing in the source. -/
inductive ExtensionValue
  | subjectAlternativeName (dns_names : List String)
  | basicConstraints (ca : Bool) (path_length : Option Nat)
  | keyUsage (flags : KeyUsageFlags)
  | authorityKeyIdentifier (issuer_public_key : RSAPublicKey)
deriving DecidableEq, Repr

/-- An extension together with its criticality flag. -/
structure Extension where
  value : ExtensionValue
  critical : Bool
deriving DecidableEq, Repr

/-- `x509.CertificateBuilder` state: every call site of the source sets all
fields before signing, so the fields are total here. -/
structure CertificateBuilder where
  subject : Name
  issuer : Name
  public_key : RSAPublicKey
  serial_number : Nat
  not_valid_before : Int
  not_valid_after : Int
  extensions : List Extension
deriving DecidableEq, Repr

/-- `builder.add_extension(value, critical=...)`: appends one extension. -/
def CertificateBuilder.add_extension (b : CertificateBuilder)
    (value : ExtensionValue) (critical : Bool) : CertificateBuilder :=
  { b with extensions := b.extensions ++ [⟨value, critical⟩] }

/-- The signature on a certificate: which public key verifies it and which
hash algorithm was used. -/
structure Signature where
  signer : RSAPublicKey
  algorithm : HashAlg
deriving DecidableEq, Repr

/-- A signed certificate: the finalized (to-be-signed) template plus the
signature. -/
structure Certificate where
  tbs : CertificateBuilder
  signature : Signature
deriving DecidableEq, Repr

/-- `builder.sign(private_key, algorithm, backend)`: finalizes the template
with a signature made by `key`, verifiable with `key.public_key()`. -/
def CertificateBuilder.sign (b : CertificateBuilder) (key : RSAKey)
    (algorithm : HashAlg) : Certificate :=
  ⟨b, ⟨key.public_key, algorithm⟩⟩

/-- Standard X.509 one-step chain verification of `cert` against the issuer
certificate `ica`: issuer/subject linkage plus signature verification with
the issuer certificate's public key. -/
def verify (cert ica : Certificate) : Bool :=
  decide (cert.tbs.issuer = ica.tbs.subject
    ∧ cert.signature.signer = ica.tbs.public_key)

/-- Serialization encodings used by the source (`serialization.Encoding.PEM`). -/
inductive Encoding
  | PEM
deriving DecidableEq, Repr

/-- Private-key serialization formats (`serialization.PrivateFormat.TraditionalOpenSSL`). -/
inductive PrivFormat
  | TraditionalOpenSSL
deriving DecidableEq, Repr

/-- Private-key encryption algorithms (`serialization.NoEncryption()`). -/
inductive EncryptionAlgorithm
  | NoEncryption
deriving DecidableEq, Repr

/-- Contents of a file on disk.  PEM serialization of keys and certificates
is injective, so it is modelled by constructors; `raw` covers preexisting
bytes written by somebody else. -/
inductive FileData
  | privateBytes (encoding : Encoding) (format : PrivFormat)
      (encryption_algorithm : EncryptionAlgorithm) (key : RSAKey)
  | publicBytes (encoding : Encoding) (cert : Certificate)
  | raw (contents : String)
deriving DecidableEq, Repr

/-- The filesystem: newest write first; `read` takes the first match, so a
write overwrites. -/
abbrev FS := List (Path × FileData)

/-- Read the current contents at `p`, if a file exists there. -/
def FS.read (fs : FS) (p : Path) : Option FileData :=
  match fs with
  | [] => none
  | (q, d) :: rest => if q = p then some d else FS.read rest p

/-- `open(p, "wb")` followed by a full write: overwrites whatever was at `p`. -/
def FS.write (fs : FS) (p : Path) (d : FileData) : FS :=
  (p, d) :: fs

/-- `p.is_file()`. -/
def FS.is_file (fs : FS) (p : Path) : Bool :=
  (fs.read p).isSome

/-- Process state threaded through an operation: files, directories created
so far, and lines printed to the terminal. -/
structure State where
  fs : FS
  dirs : List Path
  printed : List String
deriving DecidableEq, Repr

/-- Oracle inputs an operation consumes: the OS user name, the randomness of
the one key generated, the random certificate serial, the two successive
`utcnow()` readings taken inside `certificate_template` (`t1` at entry for
`not_valid_after`, `t2` later for `not_valid_before`), and the SHA-1 digest
of the signed certificate as returned by the backend (20 bytes). -/
structure Env where
  user : String
  seed : Nat
  serial : Nat
  t1 : Int
  t2 : Int
  sha1 : List Nat
deriving DecidableEq, Repr

/-- Python exceptions the module can raise. -/
inductive PyError
  | OSError (msg : String)
  | RuntimeError (msg : String)
  | ValueError (msg : String)
  | FileNotFoundError (msg : String)
deriving DecidableEq, Repr

/-- The `RuntimeError` raised by `create_certificate` when the CA is absent
(the spec's `CaNotFoundError`). -/
def CaNotFoundError : PyError :=
  .RuntimeError ("Could not find CA key and certificate. Please "
    ++ "run the command \"webviz certificate --auto-install\" and "
    ++ "try again")

/-- The `OSError` raised by `create_ca` without `--force` when the CA
certificate file exists (the spec's `AlreadyExistsError`). -/
def AlreadyExistsError (ca_crt_path : Path) : PyError :=
  .OSError ("The file " ++ pathToString ca_crt_path ++ " already exists. Add the "
    ++ "command line flag --force if you want to overwrite")

/-- Outcome of an operation: the state at the end (or at the raise point)
and the raised exception, if any. -/
structure Result where
  state : State
  error : Option PyError
deriving DecidableEq, Repr

/-- One day, in seconds. -/
def day : Int := 86400

/-- `create_key(key_path)`: generates a fresh RSA key with public exponent
65537 and modulus size 2048 bits, writes its unencrypted traditional-format
PEM serialization to `key_path` (overwriting), and returns the in-memory
key. -/
def create_key (fs : FS) (key_path : Path) (seed : Nat) : RSAKey × FS :=
  let key := generate_private_key 65537 2048 seed
  (key,
    fs.write key_path
      (.privateBytes .PEM .TraditionalOpenSSL .NoEncryption key))

/-- `certificate_template(subject, issuer, public_key, certauthority)`:
builds the unsigned certificate.  `t1` is the `utcnow()` reading taken at
function entry (base of `not_valid_after`); `t2` is the later `utcnow()`
reading passed to `.not_valid_before(...)`; `serial` is
`x509.random_serial_number()`. -/
def certificate_template (subject issuer : Name) (public_key : RSAPublicKey)
    (certauthority : Bool) (serial : Nat) (t1 t2 : Int) : CertificateBuilder :=
  let not_valid_after : Int :=
    if certauthority then t1 + 365 * 10 * day else t1 + 7 * day
  (CertificateBuilder.add_extension
    (CertificateBuilder.add_extension
      { subject := subject
        issuer := issuer
        public_key := public_key
        serial_number := serial
        not_valid_before := t2
        not_valid_after := not_valid_after
        extensions := [] }
      (.subjectAlternativeName ["localhost"]) true)
    (.basicConstraints certauthority none) true)

/-- A lowercase hexadecimal digit. -/
def hexChar (n : Nat) : Char :=
  if n < 10 then Char.ofNat (48 + n) else Char.ofNat (87 + n)

/-- `bytes.hex()`: two lowercase hex digits per byte. -/
def hexEncode (bytes : List Nat) : List Char :=
  (bytes.map (fun b => [hexChar (b / 16), hexChar (b % 16)])).flatten

/-- `re.findall(".{8,8}", s)`: successive groups of exactly 8 characters,
discarding a shorter tail. -/
def chunks8 (l : List Char) : List (List Char) :=
  if h : 8 ≤ l.length then
    l.take 8 :: chunks8 (l.drop 8)
  else []
termination_by l.length
decreasing_by simp [List.length_drop]; omega

/-- `"-".join(groups)`. -/
def joinHyphen : List (List Char) → List Char
  | [] => []
  | [g] => g
  | g :: gs => g ++ '-' :: joinHyphen gs

/-- The fingerprint string printed by `create_ca`:
`"-".join(re.findall(".{8,8}", cert.fingerprint(hashes.SHA1()).hex())).upper()`
applied to the 20-byte SHA-1 digest. -/
def displayFingerprint (digest : List Nat) : List Char :=
  (joinHyphen (chunks8 (hexEncode digest))).map Char.toUpper

/-- Outcome of the `subprocess.run(["certutil", ...], check=True)` call:
it succeeds, raises `PermissionError`, raises
`subprocess.CalledProcessError` (non-zero exit, because of `check=True`),
or raises `FileNotFoundError` when the executable is not present (which the
source does not catch). -/
inductive InstallOutcome
  | success
  | permissionDenied
  | calledProcessFailed
  | executableMissing
deriving DecidableEq, Repr

/-- The success message printed after automatic installation. -/
def successMsg : String :=
  "Successfully installed webviz certificate. Ready to browse applications on localhost."

/-- The warning printed when automatic installation fails. -/
def installFailedMsg : String :=
  "Automatic installation of webviz certificate failed. Falling back to manual installation."

/-- The manual-installation instruction block (terminal colouring and layout
elided); it names the user data directory, the two CA filenames, and the
SHA-1 thumbprint. -/
def manualInstructionsMsg (directory sha1 : String) : String :=
  "Created CA key and certificate files (both saved in " ++ directory ++ "). "
    ++ "Keep the key file (" ++ CA_KEY_FILENAME ++ ") private. The certificate file ("
    ++ CA_CRT_FILENAME ++ ") is not sensitive, and you can import it in your browser(s). "
    ++ "To install it in Chrome: ... verify that the displayed thumbprint is the same as this one: "
    ++ sha1 ++ " ... The certificate is only valid for localhost."

/-- Record that a directory exists (`mkdir(parents=True, exist_ok=True)`);
touches no files. -/
def mkdirP (dirs : List Path) (p : Path) : List Path :=
  if p ∈ dirs then dirs else p :: dirs

/-- `create_ca(args)` with `args.force`, `args.auto_install`:
resolve the user data directory, refuse to overwrite an existing CA
certificate without `--force`, generate and persist the CA key, self-sign
and persist the CA certificate, then attempt or describe trust-store
installation. -/
def create_ca (force auto_install : Bool) (outcome : InstallOutcome)
    (st : State) (env : Env) : Result :=
  let directory := user_data_dir
  let st1 : State := { st with dirs := mkdirP st.dirs directory }
  let ca_key_path := directory ++ [CA_KEY_FILENAME]
  let ca_crt_path := directory ++ [CA_CRT_FILENAME]
  if ¬ force ∧ st1.fs.is_file ca_crt_path then
    ⟨st1, some (AlreadyExistsError ca_crt_path)⟩
  else
    let kf := create_key st1.fs ca_key_path env.seed
    let key := kf.1
    let st2 : State := { st1 with fs := kf.2 }
    let subject := NAME env.user
    let issuer := NAME env.user
    let cert :=
      (certificate_template subject issuer key.public_key true
        env.serial env.t1 env.t2).sign key .SHA256
    let st3 : State := { st2 with fs := st2.fs.write ca_crt_path (.publicBytes .PEM cert) }
    let sha1 : String := ⟨displayFingerprint env.sha1⟩
    match auto_install, outcome with
    | true, .success =>
        ⟨{ st3 with printed := st3.printed ++ [successMsg] }, none⟩
    | true, .permissionDenied =>
        let st4 : State := { st3 with printed := st3.printed ++ [installFailedMsg] }
        ⟨{ st4 with printed := st4.printed
            ++ [manualInstructionsMsg (pathToString directory) sha1] }, none⟩
    | true, .calledProcessFailed =>
        let st4 : State := { st3 with printed := st3.printed ++ [installFailedMsg] }
        ⟨{ st4 with printed := st4.printed
            ++ [manualInstructionsMsg (pathToString directory) sha1] }, none⟩
    | true, .executableMissing =>
        ⟨st3, some (.FileNotFoundError "certutil")⟩
    | false, _ =>
        ⟨{ st3 with printed := st3.printed
            ++ [manualInstructionsMsg (pathToString directory) sha1] }, none⟩

/-- `create_certificate(directory)`: require both CA files, load them,
generate and persist a fresh server key, build the leaf template, attach the
key-usage and authority-key-identifier extensions, sign with the CA key and
persist the server certificate. -/
def create_certificate (directory : Path) (st : State) (env : Env) : Result :=
  let ca_directory := user_data_dir
  let ca_key_path := ca_directory ++ [CA_KEY_FILENAME]
  let ca_crt_path := ca_directory ++ [CA_CRT_FILENAME]
  let server_key_path := directory ++ [SERVER_KEY_FILENAME]
  let server_crt_path := directory ++ [SERVER_CRT_FILENAME]
  if ¬ st.fs.is_file ca_key_path ∨ ¬ st.fs.is_file ca_crt_path then
    ⟨st, some CaNotFoundError⟩
  else
    match st.fs.read ca_key_path with
    | some (.privateBytes _ _ _ ca_key) =>
      match st.fs.read ca_crt_path with
      | some (.publicBytes _ ca_crt) =>
        let kf := create_key st.fs server_key_path env.seed
        let server_key := kf.1
        let st1 : State := { st with fs := kf.2 }
        let crt :=
          (((certificate_template (NAME env.user) ca_crt.tbs.subject
              server_key.public_key false env.serial env.t1 env.t2).add_extension
            (.keyUsage
              { digital_signature := true
                key_encipherment := true
                content_commitment := true
                data_encipherment := false
                key_agreement := false
                encipher_only := false
                decipher_only := false
                key_cert_sign := false
                crl_sign := false }) true).add_extension
            (.authorityKeyIdentifier ca_key.public_key) false).sign ca_key .SHA256
        ⟨{ st1 with fs := st1.fs.write server_crt_path (.publicBytes .PEM crt) }, none⟩
      | _ => ⟨st, some (.ValueError "Unable to load PEM certificate")⟩
    | _ => ⟨st, some (.ValueError "Could not deserialize key data")⟩

/-- The sixteen uppercase hexadecimal digits. -/
def upperHexDigits : List Char := "0123456789ABCDEF".toList

/-- The server certificate `create_certificate` builds on its success path
(named here so theorems can exhibit it as an explicit witness; it is
definitionally the certificate constructed in `create_certificate`). -/
def issued_leaf (user : String) (ca_key : RSAKey) (ca_crt : Certificate)
    (server_key : RSAKey) (serial : Nat) (t1 t2 : Int) : Certificate :=
  (((certificate_template (NAME user) ca_crt.tbs.subject
      server_key.public_key false serial t1 t2).add_extension
    (.keyUsage
      { digital_signature := true
        key_encipherment := true
        content_commitment := true
        data_encipherment := false
        key_agreement := false
        encipher_only := false
        decipher_only := false
        key_cert_sign := false
        crl_sign := false }) true).add_extension
    (.authorityKeyIdentifier ca_key.public_key) false).sign ca_key .SHA256

/-! ### Helper lemmas -/

theorem FS.read_write_self (fs : FS) (p : Path) (d : FileData) :
    (fs.write p d).read p = some d := by
  simp [FS.write, FS.read]

theorem FS.read_write_ne (fs : FS) (p q : Path) (d : FileData) (h : p ≠ q) :
    (fs.write p d).read q = fs.read q := by
  simp [FS.write, FS.read, h]

theorem hexEncode_length (bs : List Nat) : (hexEncode bs).length = 2 * bs.length := by
  induction bs with
  | nil => simp [hexEncode]
  | cons b bs ih =>
    simp only [hexEncode, List.map_cons, List.flatten_cons, List.length_append,
      List.length_cons, List.length_nil] at *
    omega

theorem chunks8_spec : ∀ (k : Nat) (l : List Char), l.length = 8 * k →
    (chunks8 l).length = k ∧ (chunks8 l).flatten = l
      ∧ ∀ g ∈ chunks8 l, g.length = 8 := by
  intro k
  induction k with
  | zero =>
    intro l hl
    rw [chunks8]
    rw [dif_neg (by omega)]
    have : l = [] := List.length_eq_zero.mp (by omega)
    simp [this]
  | succ k ih =>
    intro l hl
    have h8 : 8 ≤ l.length := by omega
    have hdrop : (l.drop 8).length = 8 * k := by
      simp [List.length_drop]; omega
    obtain ⟨ih1, ih2, ih3⟩ := ih (l.drop 8) hdrop
    rw [chunks8, dif_pos h8]
    refine ⟨by simp [ih1], ?_, ?_⟩
    · simp [ih2]
    · intro g hg
      rcases List.mem_cons.mp hg with h | h
      · subst h; simp [List.length_take]; omega
      · exact ih3 g h

theorem map_toUpper_joinHyphen (gs : List (List Char)) :
    (joinHyphen gs).map Char.toUpper = joinHyphen (gs.map (List.map Char.toUpper)) := by
  induction gs with
  | nil => simp [joinHyphen]
  | cons g gs ih =>
    cases gs with
    | nil => simp [joinHyphen]
    | cons g2 gs2 =>
      have hup : Char.toUpper '-' = '-' := by decide
      simp only [joinHyphen, List.map_cons, List.map_append] at *
      simp [ih, hup]

theorem hexChar_toUpper_mem : ∀ n < 16, (hexChar n).toUpper ∈ upperHexDigits := by
  decide

theorem create_certificate_success (directory : Path) (st : State)
    (env : Env) (ca_key : RSAKey) (ca_crt : Certificate)
    (hk : st.fs.read (user_data_dir ++ [CA_KEY_FILENAME])
        = some (.privateBytes .PEM .TraditionalOpenSSL .NoEncryption ca_key))
    (hc : st.fs.read (user_data_dir ++ [CA_CRT_FILENAME])
        = some (.publicBytes .PEM ca_crt)) :
    create_certificate directory st env =
      ⟨⟨(st.fs.write (directory ++ [SERVER_KEY_FILENAME])
            (.privateBytes .PEM .TraditionalOpenSSL .NoEncryption
              (generate_private_key 65537 2048 env.seed))).write
          (directory ++ [SERVER_CRT_FILENAME])
          (.publicBytes .PEM (issued_leaf env.user ca_key ca_crt
            (generate_private_key 65537 2048 env.seed) env.serial env.t1 env.t2)),
        st.dirs, st.printed⟩, none⟩ := by
  simp [create_certificate, FS.is_file, hk, hc, create_key, issued_leaf]

/-! ### Claim theorems -/

/-- C1: if the CA key file or the CA certificate file (or both) is missing
from the user data directory — in particular for a half-created CA —
`create_certificate` raises the CA-not-found `RuntimeError` telling the
operator to run `webviz certificate --auto-install` first, and the state is
unchanged: no file is written anywhere, in particular not to the
caller-specified output directory. -/
theorem create_certificate_missing_ca (directory : Path) (st : State) (env : Env)
    (h : st.fs.read (user_data_dir ++ [CA_KEY_FILENAME]) = none
       ∨ st.fs.read (user_data_dir ++ [CA_CRT_FILENAME]) = none) :
    create_certificate directory st env =
      ⟨st, some (PyError.RuntimeError ("Could not find CA key and certificate. Please "
        ++ "run the command \"webviz certificate --auto-install\" and "
        ++ "try again"))⟩ := by
  rcases h with h | h <;>
    simp [create_certificate, FS.is_file, h, CaNotFoundError]

/-- Witness for C1: a concrete state with only the CA key present (a
half-created CA) makes `create_certificate` fail with the CA-not-found
error and leave the state untouched. -/
theorem create_certificate_missing_ca_witness :
    create_certificate ["out"]
        ⟨[(user_data_dir ++ [CA_KEY_FILENAME],
           .privateBytes .PEM .TraditionalOpenSSL .NoEncryption ⟨65537, 2048, 0⟩)], [], []⟩
        ⟨"alice", 1, 2, 3, 4, []⟩ =
      ⟨⟨[(user_data_dir ++ [CA_KEY_FILENAME],
           .privateBytes .PEM .TraditionalOpenSSL .NoEncryption ⟨65537, 2048, 0⟩)], [], []⟩,
        some (PyError.RuntimeError ("Could not find CA key and certificate. Please "
          ++ "run the command \"webviz certificate --auto-install\" and "
          ++ "try again"))⟩ :=
  create_certificate_missing_ca _ _ _ (Or.inr (by decide))

/-- C2: `create_ca` with `force = false` on a state whose CA certificate
file exists fails with the already-exists `OSError`, whose message names the
CA certificate path and instructs the operator to pass `--force`, and the
filesystem (hence both existing CA files) is untouched: no file is written
before the check. -/
theorem create_ca_already_exists (auto_install : Bool) (outcome : InstallOutcome)
    (st : State) (env : Env)
    (h : (st.fs.read (user_data_dir ++ [CA_CRT_FILENAME])).isSome) :
    create_ca false auto_install outcome st env =
      ⟨⟨st.fs, mkdirP st.dirs user_data_dir, st.printed⟩,
        some (PyError.OSError ("The file "
          ++ pathToString (user_data_dir ++ [CA_CRT_FILENAME])
          ++ " already exists. Add the "
          ++ "command line flag --force if you want to overwrite"))⟩ := by
  simp [create_ca, FS.is_file, h, AlreadyExistsError]

/-- Witness for C2: with a CA certificate already on disk and no force
flag, `create_ca` raises the already-exists error and the file map is
byte-for-byte what it was. -/
theorem create_ca_already_exists_witness :
    create_ca false true .success
        ⟨[(user_data_dir ++ [CA_CRT_FILENAME], .raw "old-cert")], [], []⟩
        ⟨"alice", 1, 2, 3, 4, []⟩ =
      ⟨⟨[(user_data_dir ++ [CA_CRT_FILENAME], .raw "old-cert")], [user_data_dir], []⟩,
        some (PyError.OSError ("The file "
          ++ pathToString (user_data_dir ++ [CA_CRT_FILENAME])
          ++ " already exists. Add the "
          ++ "command line flag --force if you want to overwrite"))⟩ :=
  create_ca_already_exists true .success _ _ (by decide)

/-- C3: in every template, `not_valid_before` is the (second) `utcnow()`
reading taken while building and `not_valid_after` is the (first) `utcnow()`
reading plus 10 years (`365 * 10` days, as in the source) for a CA and plus
7 days otherwise; consequently, when the two clock readings are within a
tolerance of ε seconds of each other, `not_valid_after - not_valid_before`
is within ε seconds of 10 years for a CA and of 7 days for a leaf. -/
theorem certificate_template_validity (subject issuer : Name)
    (pk : RSAPublicKey) (certauthority : Bool) (serial : Nat) (t1 t2 ε : Int)
    (h1 : t1 ≤ t2) (h2 : t2 ≤ t1 + ε) :
    (certificate_template subject issuer pk certauthority serial t1 t2).not_valid_before = t2
    ∧ (certificate_template subject issuer pk certauthority serial t1 t2).not_valid_after
        = t1 + (if certauthority then 365 * 10 * day else 7 * day)
    ∧ (if certauthority then 365 * 10 * day else 7 * day) - ε
        ≤ (certificate_template subject issuer pk certauthority serial t1 t2).not_valid_after
          - (certificate_template subject issuer pk certauthority serial t1 t2).not_valid_before
    ∧ (certificate_template subject issuer pk certauthority serial t1 t2).not_valid_after
          - (certificate_template subject issuer pk certauthority serial t1 t2).not_valid_before
        ≤ (if certauthority then 365 * 10 * day else 7 * day) := by
  cases certauthority <;>
    simp [certificate_template, CertificateBuilder.add_extension] <;> omega

/-- Witness for C3: concrete clock readings one second apart give a CA
window of exactly `365 * 10` days minus one second. -/
theorem certificate_template_validity_witness :
    (certificate_template (NAME "alice") (NAME "alice") ⟨65537, 2048, 0⟩ true 7 100 101).not_valid_before = 101
    ∧ (certificate_template (NAME "alice") (NAME "alice") ⟨65537, 2048, 0⟩ true 7 100 101).not_valid_after
        = 100 + (if true then 365 * 10 * day else 7 * day)
    ∧ (if true then 365 * 10 * day else 7 * day) - 1
        ≤ (certificate_template (NAME "alice") (NAME "alice") ⟨65537, 2048, 0⟩ true 7 100 101).not_valid_after
          - (certificate_template (NAME "alice") (NAME "alice") ⟨65537, 2048, 0⟩ true 7 100 101).not_valid_before
    ∧ (certificate_template (NAME "alice") (NAME "alice") ⟨65537, 2048, 0⟩ true 7 100 101).not_valid_after
          - (certificate_template (NAME "alice") (NAME "alice") ⟨65537, 2048, 0⟩ true 7 100 101).not_valid_before
        ≤ (if true then 365 * 10 * day else 7 * day) :=
  certificate_template_validity (NAME "alice") (NAME "alice") ⟨65537, 2048, 0⟩ true 7
    100 101 1 (by decide) (by decide)

/-- C4: every template carries exactly two extensions: a critical Subject
Alternative Name equal to the single entry `DNSName "localhost"`, and a
critical Basic Constraints extension whose CA flag equals the
`certauthority` argument with no path length. -/
theorem certificate_template_extensions (subject issuer : Name)
    (pk : RSAPublicKey) (certauthority : Bool) (serial : Nat) (t1 t2 : Int) :
    (certificate_template subject issuer pk certauthority serial t1 t2).extensions =
      [⟨.subjectAlternativeName ["localhost"], true⟩,
       ⟨.basicConstraints certauthority none, true⟩] := by
  simp [certificate_template, CertificateBuilder.add_extension]

/-- C5: whenever `create_certificate` succeeds (both CA files present and
parseable), the certificate it writes to `directory/server.crt` carries, in
order, the two mandatory template extensions and, attached to the template
before signing, a critical Key Usage extension with exactly digital
signature, key encipherment and content commitment set and all other six
flags clear, and a non-critical Authority Key Identifier derived from the
issuing CA key's public key. -/
theorem create_certificate_leaf_extensions (directory : Path) (st : State)
    (env : Env) (ca_key : RSAKey) (ca_crt : Certificate)
    (hk : st.fs.read (user_data_dir ++ [CA_KEY_FILENAME])
        = some (.privateBytes .PEM .TraditionalOpenSSL .NoEncryption ca_key))
    (hc : st.fs.read (user_data_dir ++ [CA_CRT_FILENAME])
        = some (.publicBytes .PEM ca_crt)) :
    ∃ crt : Certificate,
      (create_certificate directory st env).error = none
      ∧ (create_certificate directory st env).state.fs.read
          (directory ++ [SERVER_CRT_FILENAME]) = some (.publicBytes .PEM crt)
      ∧ crt.tbs.extensions =
          [⟨.subjectAlternativeName ["localhost"], true⟩,
           ⟨.basicConstraints false none, true⟩,
           ⟨.keyUsage
              { digital_signature := true
                key_encipherment := true
                content_commitment := true
                data_encipherment := false
                key_agreement := false
                encipher_only := false
                decipher_only := false
                key_cert_sign := false
                crl_sign := false }, true⟩,
           ⟨.authorityKeyIdentifier ca_key.public_key, false⟩] := by
  refine ⟨issued_leaf env.user ca_key ca_crt
    (generate_private_key 65537 2048 env.seed) env.serial env.t1 env.t2, ?_, ?_, ?_⟩
  · rw [create_certificate_success directory st env ca_key ca_crt hk hc]
  · rw [create_certificate_success directory st env ca_key ca_crt hk hc]
    exact FS.read_write_self _ _ _
  · simp [issued_leaf, certificate_template, CertificateBuilder.add_extension,
      CertificateBuilder.sign]

/-- Witness for C5: a concrete state holding a CA key and certificate
yields a server certificate whose extension list is exactly the four
claimed extensions. -/
theorem create_certificate_leaf_extensions_witness :
    ∃ crt : Certificate,
      (create_certificate ["out"]
          ⟨[(user_data_dir ++ [CA_KEY_FILENAME],
             .privateBytes .PEM .TraditionalOpenSSL .NoEncryption ⟨65537, 2048, 0⟩),
            (user_data_dir ++ [CA_CRT_FILENAME],
             .publicBytes .PEM
               ⟨{ subject := NAME "alice", issuer := NAME "alice",
                   public_key := ⟨65537, 2048, 0⟩, serial_number := 9,
                   not_valid_before := 0, not_valid_after := 1, extensions := [] },
                 ⟨⟨65537, 2048, 0⟩, .SHA256⟩⟩)], [], []⟩
          ⟨"alice", 1, 2, 3, 4, []⟩).error = none
      ∧ (create_certificate ["out"]
          ⟨[(user_data_dir ++ [CA_KEY_FILENAME],
             .privateBytes .PEM .TraditionalOpenSSL .NoEncryption ⟨65537, 2048, 0⟩),
            (user_data_dir ++ [CA_CRT_FILENAME],
             .publicBytes .PEM
               ⟨{ subject := NAME "alice", issuer := NAME "alice",
                   public_key := ⟨65537, 2048, 0⟩, serial_number := 9,
                   not_valid_before := 0, not_valid_after := 1, extensions := [] },
                 ⟨⟨65537, 2048, 0⟩, .SHA256⟩⟩)], [], []⟩
          ⟨"alice", 1, 2, 3, 4, []⟩).state.fs.read
          (["out"] ++ [SERVER_CRT_FILENAME]) = some (.publicBytes .PEM crt)
      ∧ crt.tbs.extensions =
          [⟨.subjectAlternativeName ["localhost"], true⟩,
           ⟨.basicConstraints false none, true⟩,
           ⟨.keyUsage
              { digital_signature := true
                key_encipherment := true
                content_commitment := true
                data_encipherment := false
                key_agreement := false
                encipher_only := false
                decipher_only := false
                key_cert_sign := false
                crl_sign := false }, true⟩,
           ⟨.authorityKeyIdentifier (RSAKey.public_key ⟨65537, 2048, 0⟩), false⟩] :=
  create_certificate_leaf_extensions ["out"]
    ⟨[(user_data_dir ++ [CA_KEY_FILENAME],
       .privateBytes .PEM .TraditionalOpenSSL .NoEncryption ⟨65537, 2048, 0⟩),
      (user_data_dir ++ [CA_CRT_FILENAME],
       .publicBytes .PEM
         ⟨{ subject := NAME "alice", issuer := NAME "alice",
             public_key := ⟨65537, 2048, 0⟩, serial_number := 9,
             not_valid_before := 0, not_valid_after := 1, extensions := [] },
           ⟨⟨65537, 2048, 0⟩, .SHA256⟩⟩)], [], []⟩
    ⟨"alice", 1, 2, 3, 4, []⟩ ⟨65537, 2048, 0⟩
    ⟨{ subject := NAME "alice", issuer := NAME "alice",
        public_key := ⟨65537, 2048, 0⟩, serial_number := 9,
        not_valid_before := 0, not_valid_after := 1, extensions := [] },
      ⟨⟨65537, 2048, 0⟩, .SHA256⟩⟩
    (by decide) (by decide)

/-- C6: whenever `create_certificate` succeeds, the written server
certificate's template was built with `certauthority = false` (Basic
Constraints CA flag false), subject the static identity, issuer the subject
of the loaded CA certificate, and public key the freshly generated server
key's public key, and it is signed with the loaded CA private key using
SHA-256; hence, whenever the loaded CA certificate's embedded public key is
the CA key's public key (as it is for any CA produced by `create_ca`), the
server certificate verifies against the issuing CA certificate by
issuer/subject linkage and signature verification. -/
theorem create_certificate_chain (directory : Path) (st : State)
    (env : Env) (ca_key : RSAKey) (ca_crt : Certificate)
    (hk : st.fs.read (user_data_dir ++ [CA_KEY_FILENAME])
        = some (.privateBytes .PEM .TraditionalOpenSSL .NoEncryption ca_key))
    (hc : st.fs.read (user_data_dir ++ [CA_CRT_FILENAME])
        = some (.publicBytes .PEM ca_crt)) :
    ∃ crt : Certificate,
      (create_certificate directory st env).error = none
      ∧ (create_certificate directory st env).state.fs.read
          (directory ++ [SERVER_CRT_FILENAME]) = some (.publicBytes .PEM crt)
      ∧ crt.tbs.subject = NAME env.user
      ∧ crt.tbs.issuer = ca_crt.tbs.subject
      ∧ crt.tbs.public_key = (generate_private_key 65537 2048 env.seed).public_key
      ∧ ⟨.basicConstraints false none, true⟩ ∈ crt.tbs.extensions
      ∧ crt.signature = ⟨ca_key.public_key, .SHA256⟩
      ∧ (ca_crt.tbs.public_key = ca_key.public_key → verify crt ca_crt = true) := by
  refine ⟨issued_leaf env.user ca_key ca_crt
    (generate_private_key 65537 2048 env.seed) env.serial env.t1 env.t2,
    ?_, ?_, ?_, ?_, ?_, ?_, ?_, ?_⟩
  · rw [create_certificate_success directory st env ca_key ca_crt hk hc]
  · rw [create_certificate_success directory st env ca_key ca_crt hk hc]
    exact FS.read_write_self _ _ _
  · simp [issued_leaf, certificate_template, CertificateBuilder.add_extension,
      CertificateBuilder.sign]
  · simp [issued_leaf, certificate_template, CertificateBuilder.add_extension,
      CertificateBuilder.sign]
  · simp [issued_leaf, certificate_template, CertificateBuilder.add_extension,
      CertificateBuilder.sign]
  · simp [issued_leaf, certificate_template, CertificateBuilder.add_extension,
      CertificateBuilder.sign]
  · simp [issued_leaf, CertificateBuilder.sign]
  · intro hpub
    simp [verify, issued_leaf, CertificateBuilder.sign, certificate_template,
      CertificateBuilder.add_extension, hpub]

/-- Witness for C6: with a concrete matching CA key/certificate pair on
disk, the issued server certificate chains back to the CA: issuer equals
the CA subject, the signature names the CA public key, and `verify`
succeeds. -/
theorem create_certificate_chain_witness :
    ∃ crt : Certificate,
      (create_certificate ["out"]
          ⟨[(user_data_dir ++ [CA_KEY_FILENAME],
             .privateBytes .PEM .TraditionalOpenSSL .NoEncryption ⟨65537, 2048, 0⟩),
            (user_data_dir ++ [CA_CRT_FILENAME],
             .publicBytes .PEM
               ⟨{ subject := NAME "alice", issuer := NAME "alice",
                   public_key := ⟨65537, 2048, 0⟩, serial_number := 9,
                   not_valid_before := 0, not_valid_after := 1, extensions := [] },
                 ⟨⟨65537, 2048, 0⟩, .SHA256⟩⟩)], [], []⟩
          ⟨"alice", 1, 2, 3, 4, []⟩).error = none
      ∧ (create_certificate ["out"]
          ⟨[(user_data_dir ++ [CA_KEY_FILENAME],
             .privateBytes .PEM .TraditionalOpenSSL .NoEncryption ⟨65537, 2048, 0⟩),
            (user_data_dir ++ [CA_CRT_FILENAME],
             .publicBytes .PEM
               ⟨{ subject := NAME "alice", issuer := NAME "alice",
                   public_key := ⟨65537, 2048, 0⟩, serial_number := 9,
                   not_valid_before := 0, not_valid_after := 1, extensions := [] },
                 ⟨⟨65537, 2048, 0⟩, .SHA256⟩⟩)], [], []⟩
          ⟨"alice", 1, 2, 3, 4, []⟩).state.fs.read
          (["out"] ++ [SERVER_CRT_FILENAME]) = some (.publicBytes .PEM crt)
      ∧ crt.tbs.subject = NAME "alice"
      ∧ crt.tbs.issuer = NAME "alice"
      ∧ crt.tbs.public_key = (generate_private_key 65537 2048 1).public_key
      ∧ ⟨.basicConstraints false none, true⟩ ∈ crt.tbs.extensions
      ∧ crt.signature = ⟨RSAKey.public_key ⟨65537, 2048, 0⟩, .SHA256⟩
      ∧ verify crt
          ⟨{ subject := NAME "alice", issuer := NAME "alice",
              public_key := ⟨65537, 2048, 0⟩, serial_number := 9,
              not_valid_before := 0, not_valid_after := 1, extensions := [] },
            ⟨⟨65537, 2048, 0⟩, .SHA256⟩⟩ = true := by
  obtain ⟨crt, h1, h2, h3, h4, h5, h6, h7, h8⟩ :=
    create_certificate_chain ["out"]
      ⟨[(user_data_dir ++ [CA_KEY_FILENAME],
         .privateBytes .PEM .TraditionalOpenSSL .NoEncryption ⟨65537, 2048, 0⟩),
        (user_data_dir ++ [CA_CRT_FILENAME],
         .publicBytes .PEM
           ⟨{ subject := NAME "alice", issuer := NAME "alice",
               public_key := ⟨65537, 2048, 0⟩, serial_number := 9,
               not_valid_before := 0, not_valid_after := 1, extensions := [] },
             ⟨⟨65537, 2048, 0⟩, .SHA256⟩⟩)], [], []⟩
      ⟨"alice", 1, 2, 3, 4, []⟩ ⟨65537, 2048, 0⟩
      ⟨{ subject := NAME "alice", issuer := NAME "alice",
          public_key := ⟨65537, 2048, 0⟩, serial_number := 9,
          not_valid_before := 0, not_valid_after := 1, extensions := [] },
        ⟨⟨65537, 2048, 0⟩, .SHA256⟩⟩
      (by decide) (by decide)
  exact ⟨crt, h1, h2, h3, h4, h5, h6, h7, h8 (by decide)⟩

/-- C7: during `create_ca` with `auto_install` requested, a trust-store
installation failure of either caught kind (`PermissionError` from the
subprocess, or a non-zero exit reported as `CalledProcessError`) is
downgraded to the warning line followed by the manual-installation
instructions; no exception is raised, so the installation failure never
aborts CA creation. -/
theorem create_ca_install_failure_nonfatal (force : Bool)
    (outcome : InstallOutcome) (st : State) (env : Env)
    (hreach : force = true
      ∨ (st.fs.read (user_data_dir ++ [CA_CRT_FILENAME])).isSome = false)
    (hout : outcome = .permissionDenied ∨ outcome = .calledProcessFailed) :
    (create_ca force true outcome st env).error = none
    ∧ (create_ca force true outcome st env).state.printed =
        st.printed ++ [installFailedMsg,
          manualInstructionsMsg (pathToString user_data_dir)
            ⟨displayFingerprint env.sha1⟩] := by
  rcases hout with hout | hout <;> subst hout <;>
    rcases hreach with hreach | hreach
  · subst hreach
    simp [create_ca, FS.is_file, create_key]
  · simp [create_ca, FS.is_file, hreach, create_key]
  · subst hreach
    simp [create_ca, FS.is_file, create_key]
  · simp [create_ca, FS.is_file, hreach, create_key]

/-- Witness for C7: on an empty state with `--force` absent and no CA yet,
a non-zero `certutil` exit leaves `create_ca` error-free and prints the
warning followed by the manual instructions. -/
theorem create_ca_install_failure_nonfatal_witness :
    (create_ca false true .calledProcessFailed ⟨[], [], []⟩
        ⟨"alice", 1, 2, 3, 4, List.range 20⟩).error = none
    ∧ (create_ca false true .calledProcessFailed ⟨[], [], []⟩
        ⟨"alice", 1, 2, 3, 4, List.range 20⟩).state.printed =
        [] ++ [installFailedMsg,
          manualInstructionsMsg (pathToString user_data_dir)
            ⟨displayFingerprint (List.range 20)⟩] :=
  create_ca_install_failure_nonfatal false .calledProcessFailed
    ⟨[], [], []⟩ ⟨"alice", 1, 2, 3, 4, List.range 20⟩
    (Or.inr (by decide)) (Or.inr rfl)

/-- C8: the fingerprint `create_ca` displays (`displayFingerprint` applied
to the backend's 20-byte SHA-1 digest of the certificate) is exactly the
digest hex-encoded to 40 characters, split into 5 groups of 8 hex
characters, uppercased, and joined by hyphens: there are 5 groups, each of
8 uppercase hexadecimal characters, concatenating the groups gives the
uppercased hex encoding of the digest, and the displayed string is the
hyphen-join of the groups. -/
theorem displayFingerprint_format (digest : List Nat)
    (hlen : digest.length = 20) (hbytes : ∀ b ∈ digest, b < 256) :
    ∃ groups : List (List Char),
      groups.length = 5
      ∧ (∀ g ∈ groups, g.length = 8 ∧ ∀ c ∈ g, c ∈ upperHexDigits)
      ∧ groups.flatten = (hexEncode digest).map Char.toUpper
      ∧ displayFingerprint digest = joinHyphen groups := by
  have hlen40 : (hexEncode digest).length = 8 * 5 := by
    rw [hexEncode_length, hlen]
  obtain ⟨h1, h2, h3⟩ := chunks8_spec 5 (hexEncode digest) hlen40
  refine ⟨(chunks8 (hexEncode digest)).map (List.map Char.toUpper), ?_, ?_, ?_, ?_⟩
  · simp [h1]
  · intro g hg
    obtain ⟨g0, hg0, rfl⟩ := List.mem_map.mp hg
    refine ⟨by simp [h3 g0 hg0], ?_⟩
    intro c hc
    obtain ⟨c0, hc0, rfl⟩ := List.mem_map.mp hc
    have hmem : c0 ∈ hexEncode digest := by
      rw [← h2]
      exact List.mem_flatten.mpr ⟨g0, hg0, hc0⟩
    obtain ⟨pair, hpair, hcpair⟩ := List.mem_flatten.mp hmem
    obtain ⟨b, hb, rfl⟩ := List.mem_map.mp hpair
    have hb256 := hbytes b hb
    have hcases : c0 = hexChar (b / 16) ∨ c0 = hexChar (b % 16) := by
      simpa using hcpair
    rcases hcases with h | h
    · subst h
      exact hexChar_toUpper_mem (b / 16) (by omega)
    · subst h
      exact hexChar_toUpper_mem (b % 16) (by omega)
  · rw [← List.map_flatten, h2]
  · rw [displayFingerprint, map_toUpper_joinHyphen]

/-- Witness for C8: the concrete digest `0, 1, ..., 19` is displayed as 5
hyphen-joined groups of 8 uppercase hex characters whose concatenation is
its uppercased hex encoding. -/
theorem displayFingerprint_format_witness :
    ∃ groups : List (List Char),
      groups.length = 5
      ∧ (∀ g ∈ groups, g.length = 8 ∧ ∀ c ∈ g, c ∈ upperHexDigits)
      ∧ groups.flatten = (hexEncode (List.range 20)).map Char.toUpper
      ∧ displayFingerprint (List.range 20) = joinHyphen groups :=
  displayFingerprint_format (List.range 20) (by decide) (by decide)

/-- C9: `create_key` generates an RSA key with public exponent 65537 and
modulus size 2048 bits, writes the unencrypted traditional-format PEM
serialization of the private key to the given path (overwriting whatever
was there, and touching no other path), and returns that same in-memory
key. -/
theorem create_key_spec (fs : FS) (key_path : Path) (seed : Nat) :
    (create_key fs key_path seed).1 = generate_private_key 65537 2048 seed
    ∧ (create_key fs key_path seed).1.public_exponent = 65537
    ∧ (create_key fs key_path seed).1.key_size = 2048
    ∧ (create_key fs key_path seed).2.read key_path =
        some (.privateBytes .PEM .TraditionalOpenSSL .NoEncryption
          (create_key fs key_path seed).1)
    ∧ ∀ q : Path, q ≠ key_path →
        (create_key fs key_path seed).2.read q = fs.read q := by
  refine ⟨rfl, rfl, rfl, FS.read_write_self _ _ _, ?_⟩
  intro q hq
  exact FS.read_write_ne _ _ _ _ (fun h => hq h.symm)

/-- Witness for C9: on a filesystem already holding a file at the target
path, `create_key` overwrites it with the new key's PEM bytes and leaves an
unrelated path alone. -/
theorem create_key_spec_witness :
    (create_key [(["k"], .raw "old")] ["k"] 3).1 = generate_private_key 65537 2048 3
    ∧ (create_key [(["k"], .raw "old")] ["k"] 3).1.public_exponent = 65537
    ∧ (create_key [(["k"], .raw "old")] ["k"] 3).1.key_size = 2048
    ∧ (create_key [(["k"], .raw "old")] ["k"] 3).2.read ["k"] =
        some (.privateBytes .PEM .TraditionalOpenSSL .NoEncryption
          (create_key [(["k"], .raw "old")] ["k"] 3).1)
    ∧ (create_key [(["k"], .raw "old")] ["k"] 3).2.read ["other"] =
        FS.read [(["k"], .raw "old")] ["other"] :=
  ⟨(create_key_spec [(["k"], .raw "old")] ["k"] 3).1,
   (create_key_spec [(["k"], .raw "old")] ["k"] 3).2.1,
   (create_key_spec [(["k"], .raw "old")] ["k"] 3).2.2.1,
   (create_key_spec [(["k"], .raw "old")] ["k"] 3).2.2.2.1,
   (create_key_spec [(["k"], .raw "old")] ["k"] 3).2.2.2.2 ["other"] (by decide)⟩

/-- C10: the overwrite guard of `create_ca` tests only the CA certificate
file: when the CA key file exists but the CA certificate file does not,
`create_ca` with `force = false` raises no error and silently overwrites
the existing CA key file with the PEM serialization of a newly generated
key. (`auto_install` is quantified; the hypothesis only excludes the
orthogonal uncaught `FileNotFoundError` of a missing `certutil`
executable.) -/
theorem create_ca_overwrites_orphan_key (auto_install : Bool)
    (outcome : InstallOutcome) (st : State) (env : Env) (old : FileData)
    (hk : st.fs.read (user_data_dir ++ [CA_KEY_FILENAME]) = some old)
    (hc : st.fs.read (user_data_dir ++ [CA_CRT_FILENAME]) = none)
    (hinstall : auto_install = false ∨ outcome ≠ .executableMissing) :
    (create_ca false auto_install outcome st env).error = none
    ∧ (create_ca false auto_install outcome st env).state.fs.read
        (user_data_dir ++ [CA_KEY_FILENAME]) =
      some (.privateBytes .PEM .TraditionalOpenSSL .NoEncryption
        (generate_private_key 65537 2048 env.seed)) := by
  have hne : user_data_dir ++ [CA_CRT_FILENAME] ≠ user_data_dir ++ [CA_KEY_FILENAME] := by
    decide
  cases auto_install with
  | false =>
    constructor
    · simp [create_ca, FS.is_file, hc]
    · simp only [create_ca, FS.is_file, hc, create_key]
      simp [FS.read_write_ne _ _ _ _ hne, FS.read_write_self]
  | true =>
    have houtcome : outcome ≠ .executableMissing := by
      rcases hinstall with h | h
      · cases h
      · exact h
    cases outcome with
    | executableMissing => exact absurd rfl houtcome
    | success =>
      constructor
      · simp [create_ca, FS.is_file, hc]
      · simp only [create_ca, FS.is_file, hc, create_key]
        simp [FS.read_write_ne _ _ _ _ hne, FS.read_write_self]
    | permissionDenied =>
      constructor
      · simp [create_ca, FS.is_file, hc]
      · simp only [create_ca, FS.is_file, hc, create_key]
        simp [FS.read_write_ne _ _ _ _ hne, FS.read_write_self]
    | calledProcessFailed =>
      constructor
      · simp [create_ca, FS.is_file, hc]
      · simp only [create_ca, FS.is_file, hc, create_key]
        simp [FS.read_write_ne _ _ _ _ hne, FS.read_write_self]

/-- Witness for C10: a state holding only an orphan CA key file (no CA
certificate) lets `create_ca` run to completion without error, and
afterwards the key file holds the freshly generated key, not the old
contents. -/
theorem create_ca_overwrites_orphan_key_witness :
    (create_ca false false .success
        ⟨[(user_data_dir ++ [CA_KEY_FILENAME], .raw "old-key")], [], []⟩
        ⟨"alice", 5, 2, 3, 4, List.range 20⟩).error = none
    ∧ (create_ca false false .success
        ⟨[(user_data_dir ++ [CA_KEY_FILENAME], .raw "old-key")], [], []⟩
        ⟨"alice", 5, 2, 3, 4, List.range 20⟩).state.fs.read
        (user_data_dir ++ [CA_KEY_FILENAME]) =
      some (.privateBytes .PEM .TraditionalOpenSSL .NoEncryption
        (generate_private_key 65537 2048 5)) :=
  create_ca_overwrites_orphan_key false .success
    ⟨[(user_data_dir ++ [CA_KEY_FILENAME], .raw "old-key")], [], []⟩
    ⟨"alice", 5, 2, 3, 4, List.range 20⟩ (.raw "old-key")
    (by decide) (by decide) (Or.inl rfl)

end WebvizCert
